import Mathlib

/-!
Shallow embedding of the `elevenlabs_stt` Rust crate (files `src/lib.rs`,
`src/error.rs`, `src/types.rs`) and proofs about it.

Modelling conventions:
* Rust `Vec<u8>` is `List Nat`; `u32` is `Nat` (no arithmetic on these values
  occurs anywhere in the crate, only `to_string` serialization).
* Rust `f32` values are modelled abstractly by the type `F32` below: the crate
  never computes with floats, it only stores them and renders them with
  `to_string`, so a float is identified by its decimal rendering.
* The HTTP transport (`reqwest`) is an external collaborator; one exchange is
  modelled by an `HttpOutcome` oracle value describing what `send()`, the
  status, `text()` and `json()` of the response would yield.
* `reqwest::Error` is modelled by `ReqwestError`, exposing exactly what the
  crate consumes from it: `status()` and `to_string()`.
-/

deriving instance DecidableEq for Except

namespace ElevenLabsSTT

/-- Shallow model of a Rust `f32` value: the crate only ever serializes floats
with `to_string`, so a float is identified by its decimal rendering. -/
structure F32 where
  repr : String
deriving DecidableEq

/-- Rust `f32::to_string`. -/
def F32.toString (x : F32) : String := x.repr

/-- Rust `f32::is_finite`, expressed on the rendering that identifies the
value: exactly the non-finite values (the NaNs and the two infinities) render
as "NaN", "inf" or "-inf" under `to_string`; every finite value renders as a
decimal numeral. -/
def F32.isFinite (x : F32) : Bool :=
  !(x.repr = "NaN" || x.repr = "inf" || x.repr = "-inf")

/-- Modelled from the spec: the repository module `models::elevanlabs_models`
(file `src/models.rs`) is not present under `src/`; the spec states that
`execute()` fills an unset model identifier with "the fixed default constant
(scribe_v1)" before transmission. -/
def SCRIBE_V1 : String := "scribe_v1"

/-- `STTRequest` from `src/types.rs`. -/
structure STTRequest where
  file : Option (List Nat)
  model_id : String
  language_code : Option String
  tag_audio_events : Option Bool
  num_speakers : Option Nat
  timestamps_granularity : Option String
  diarize : Option Bool
  diarization_threshold : Option F32
  cloud_storage_url : Option String
  webhook : Option Bool
  webhook_id : Option String
  temperature : Option F32
  seed : Option Nat
  use_multi_channel : Option Bool
  webhook_metadata : Option String
deriving DecidableEq

/-- `STTResponseWordCharacters` from `src/types.rs`. -/
structure STTResponseWordCharacters where
  text : Option String
  start : Option F32
  «end» : Option F32
deriving DecidableEq

/-- `STTResponseWord` from `src/types.rs` (`type_field` is serialized under
the JSON name "type"). -/
structure STTResponseWord where
  text : Option String
  start : Option F32
  «end» : Option F32
  logprob : Option F32
  type_field : Option String
  speaker_id : Option String
  characters : Option (List STTResponseWordCharacters)
deriving DecidableEq

/-- `STTResponse` from `src/types.rs`. -/
structure STTResponse where
  text : Option String
  language_code : Option String
  language_probability : Option F32
  words : Option (List STTResponseWord)
deriving DecidableEq

/-- Model of `reqwest::Error` as consumed by the crate: `Error::status()`
(populated only for errors produced from a status code) and the rendering
used by `to_string()`. -/
structure ReqwestError where
  status : Option Nat
  message : String
deriving DecidableEq

/-- `ElevenLabsSTTError` from `src/error.rs`. -/
inductive ElevenLabsSTTError where
  | RequestError (e : ReqwestError)
  | ApiError (status : Nat) (message : String)
  | ParseError (e : ReqwestError)
  | AuthenticationError (msg : String)
  | RateLimitError (retry_after : Option Nat) (message : String)
  | QuotaExceededError (msg : String)
  | ValidationError (msg : String)
deriving DecidableEq

/-- `impl From<reqwest::Error> for ElevenLabsSTTError` from `src/error.rs`:
classify by the status carried by the error, if any. -/
def ElevenLabsSTTError.fromReqwest (error : ReqwestError) : ElevenLabsSTTError :=
  match error.status with
  | some status_code =>
    if status_code = 401 then
      ElevenLabsSTTError.AuthenticationError "Invalid API key"
    else if status_code = 429 then
      ElevenLabsSTTError.RateLimitError none "Too many requests"
    else if status_code = 402 then
      ElevenLabsSTTError.QuotaExceededError "Insufficient credits"
    else
      ElevenLabsSTTError.ApiError status_code error.message
  | none => ElevenLabsSTTError.RequestError error

/-- Model of `reqwest::multipart::Part` as built by the crate:
`Part::bytes(data).file_name(..).mime_str(..)`. -/
structure Part where
  data : List Nat
  fileName : Option String
  mime : Option String
deriving DecidableEq

/-- `reqwest::multipart::Part::bytes`. -/
def Part.bytes (data : List Nat) : Part :=
  { data := data, fileName := none, mime := none }

/-- `Part::file_name`. -/
def Part.file_name (p : Part) (n : String) : Part :=
  { p with fileName := some n }

/-- Characters accepted in a MIME type/subtype token (restricted HTTP token
characters, as accepted by the `mime` crate's parser). -/
def isMimeTokenChar (c : Char) : Bool :=
  c.isAlphanum || c = '-' || c = '.' || c = '+' || c = '*' || c = '_'

/-- Validity of a parameter-free MIME string `type/subtype`, modelling the
accepting core of the `mime` crate's `FromStr` used by `Part::mime_str`. -/
def isValidMime (s : String) : Bool :=
  match s.toList.splitOn '/' with
  | [ty, sub] =>
    decide (ty ≠ []) && decide (sub ≠ []) && ty.all isMimeTokenChar && sub.all isMimeTokenChar
  | _ => false

/-- `Part::mime_str`: fails with a builder error when the string is not a
valid MIME type. -/
def Part.mime_str (p : Part) (m : String) : Except ReqwestError Part :=
  if isValidMime m then Except.ok { p with mime := some m }
  else Except.error { status := none, message := "builder error" }

/-- A value held by one multipart form field: a text field or a file part. -/
inductive FormValue where
  | text (s : String)
  | part (p : Part)
deriving DecidableEq

/-- Model of `reqwest::multipart::Form`: named parts in insertion order. -/
abbrev Form := List (String × FormValue)

/-- `Form::new()`. -/
def Form.new : Form := []

/-- `Form::text`: append a text field. -/
def Form.text (f : Form) (k : String) (v : String) : Form :=
  List.append f [(k, FormValue.text v)]

/-- `Form::part`: append a file part. -/
def Form.part (f : Form) (k : String) (p : Part) : Form :=
  List.append f [(k, FormValue.part p)]

/-- The `request_fields` vector built in `execute_stt` (`src/lib.rs`
lines 84-113): each optional scalar field paired with its serialized form. -/
def request_fields (request : STTRequest) : List (String × Option String) :=
  [("language_code", request.language_code.map (fun n => n)),
   ("tag_audio_events", request.tag_audio_events.map (fun n => toString n)),
   ("num_speakers", request.num_speakers.map (fun n => toString n)),
   ("timestamps_granularity", request.timestamps_granularity.map (fun n => n)),
   ("diarize", request.diarize.map (fun n => toString n)),
   ("diarization_threshold", request.diarization_threshold.map (fun n => F32.toString n)),
   ("cloud_storage_url", request.cloud_storage_url.map (fun n => n)),
   ("webhook", request.webhook.map (fun n => toString n)),
   ("webhook_id", request.webhook_id.map (fun n => n)),
   ("temperature", request.temperature.map (fun n => F32.toString n)),
   ("seed", request.seed.map (fun n => toString n)),
   ("use_multi_channel", request.use_multi_channel.map (fun n => toString n)),
   ("webhook_metadata", request.webhook_metadata.map (fun n => toString n))]

/-- The file-part step of `execute_stt` (`src/lib.rs` lines 72-82): when a
payload is present, build the "file" part with the fixed MIME string and
append it, propagating a builder failure as `RequestError`. -/
def fileFormStep (form : Form) (file : Option (List Nat)) :
    Except ElevenLabsSTTError Form :=
  match file with
  | none => Except.ok form
  | some file_data =>
    match ((Part.bytes file_data).file_name "file").mime_str "application/octet-stream" with
    | Except.ok part => Except.ok (form.part "file" part)
    | Except.error e => Except.error (ElevenLabsSTTError.RequestError e)

/-- Append every present optional field of `request_fields` as a text field
(the `for (key, value) in request_fields` loop, `src/lib.rs` lines 115-119). -/
def addRequestFields (fields : List (String × Option String)) (form : Form) : Form :=
  fields.foldl
    (fun f kv =>
      match kv.2 with
      | some val => f.text kv.1 val
      | none => f)
    form

/-- The complete multipart form built by `execute_stt` for a request:
`model_id` text field, then the optional "file" part, then every present
optional scalar field. -/
def buildForm (request : STTRequest) : Except ElevenLabsSTTError Form :=
  let form := Form.new.text "model_id" request.model_id
  match fileFormStep form request.file with
  | Except.error e => Except.error e
  | Except.ok form => Except.ok (addRequestFields (request_fields request) form)

/-- Oracle describing one HTTP exchange as observed by `execute_stt`: either
`send()` fails, or a response arrives with a status code together with what
`text()` and `json::<STTResponse>()` would produce on its body. -/
inductive HttpOutcome where
  | sendFailure (e : ReqwestError)
  | response (status : Nat) (bodyText : Except ReqwestError String)
      (bodyJson : Except ReqwestError STTResponse)
deriving DecidableEq

/-- `http::StatusCode::is_success`: 2xx. -/
def isSuccessStatus (status : Nat) : Bool :=
  200 ≤ status && status < 300

/-- `ElevenLabsSTTClient::execute_stt` (`src/lib.rs` lines 66-144), with the
network exchange supplied by an `HttpOutcome` oracle. The form is built
exactly as in the source; a `send()` failure goes through the `?` operator,
i.e. `From<reqwest::Error>`; a non-success status yields `ApiError` with the
body text (empty on a body-read failure, `unwrap_or_default`); a success
status yields the decoded response or `ParseError`. -/
def execute_stt (request : STTRequest) (net : HttpOutcome) :
    Except ElevenLabsSTTError STTResponse :=
  match buildForm request with
  | Except.error e => Except.error e
  | Except.ok _form =>
    match net with
    | HttpOutcome.sendFailure e =>
      Except.error (ElevenLabsSTTError.fromReqwest e)
    | HttpOutcome.response status bodyText bodyJson =>
      if !(isSuccessStatus status) then
        Except.error (ElevenLabsSTTError.ApiError status
          (match bodyText with
           | Except.ok t => t
           | Except.error _ => ""))
      else
        match bodyJson with
        | Except.ok stt_response => Except.ok stt_response
        | Except.error e => Except.error (ElevenLabsSTTError.ParseError e)

/-- `ElevenLabsSTTClient` from `src/lib.rs` (the `reqwest::Client` transport
handle is external and carries no observable state). -/
structure ElevenLabsSTTClient where
  api_key : String
  base_url : String
deriving DecidableEq

/-- `ElevenLabsSTTClient::new`. -/
def ElevenLabsSTTClient.new (api_key : String) : ElevenLabsSTTClient :=
  { api_key := api_key, base_url := "https://api.elevenlabs.io/v1" }

/-- `ElevenLabsSTTClient::with_base_url`. -/
def ElevenLabsSTTClient.with_base_url (api_key : String) (base_url : String) :
    ElevenLabsSTTClient :=
  { api_key := api_key, base_url := base_url }

/-- `SpeechToTextBuilder` from `src/lib.rs`. -/
structure SpeechToTextBuilder where
  client : ElevenLabsSTTClient
  file : Option (List Nat)
  model_id : Option String
  language_code : Option String
  tag_audio_events : Option Bool
  num_speakers : Option Nat
  timestamps_granularity : Option String
  diarize : Option Bool
  diarization_threshold : Option F32
  cloud_storage_url : Option String
  webhook : Option Bool
  webhook_id : Option String
  temperature : Option F32
  seed : Option Nat
  webhook_metadata : Option String
  use_multi_channel : Option Bool
deriving DecidableEq

/-- `SpeechToTextBuilder::new`: all parameter fields start absent. -/
def SpeechToTextBuilder.new (client : ElevenLabsSTTClient) (file : Option (List Nat)) :
    SpeechToTextBuilder :=
  { client := client, file := file, model_id := none, language_code := none,
    tag_audio_events := none, num_speakers := none, timestamps_granularity := none,
    diarize := none, diarization_threshold := none, cloud_storage_url := none,
    webhook := none, webhook_id := none, temperature := none, seed := none,
    use_multi_channel := none, webhook_metadata := none }

/-- `ElevenLabsSTTClient::speech_to_text`: seed a builder with this client and
the optional payload. -/
def ElevenLabsSTTClient.speech_to_text (self : ElevenLabsSTTClient)
    (file : Option (List Nat)) : SpeechToTextBuilder :=
  SpeechToTextBuilder.new self file

/-- `SpeechToTextBuilder::model`. -/
def SpeechToTextBuilder.model (self : SpeechToTextBuilder) (model_id : String) :
    SpeechToTextBuilder :=
  { self with model_id := some model_id }

/-- `SpeechToTextBuilder::language_code`. -/
def SpeechToTextBuilder.language_code_set (self : SpeechToTextBuilder) (v : String) :
    SpeechToTextBuilder :=
  { self with language_code := some v }

/-- `SpeechToTextBuilder::tag_audio_events`. -/
def SpeechToTextBuilder.tag_audio_events_set (self : SpeechToTextBuilder) (v : Bool) :
    SpeechToTextBuilder :=
  { self with tag_audio_events := some v }

/-- `SpeechToTextBuilder::num_speakers`. -/
def SpeechToTextBuilder.num_speakers_set (self : SpeechToTextBuilder) (v : Nat) :
    SpeechToTextBuilder :=
  { self with num_speakers := some v }

/-- `SpeechToTextBuilder::timestamps_granularity`. -/
def SpeechToTextBuilder.timestamps_granularity_set (self : SpeechToTextBuilder) (v : String) :
    SpeechToTextBuilder :=
  { self with timestamps_granularity := some v }

/-- `SpeechToTextBuilder::diarize`. -/
def SpeechToTextBuilder.diarize_set (self : SpeechToTextBuilder) (v : Bool) :
    SpeechToTextBuilder :=
  { self with diarize := some v }

/-- `SpeechToTextBuilder::diarization_threshold`. -/
def SpeechToTextBuilder.diarization_threshold_set (self : SpeechToTextBuilder) (v : F32) :
    SpeechToTextBuilder :=
  { self with diarization_threshold := some v }

/-- `SpeechToTextBuilder::cloud_storage_url`. -/
def SpeechToTextBuilder.cloud_storage_url_set (self : SpeechToTextBuilder) (v : String) :
    SpeechToTextBuilder :=
  { self with cloud_storage_url := some v }

/-- `SpeechToTextBuilder::webhook`. -/
def SpeechToTextBuilder.webhook_set (self : SpeechToTextBuilder) (v : Bool) :
    SpeechToTextBuilder :=
  { self with webhook := some v }

/-- `SpeechToTextBuilder::webhook_id`. -/
def SpeechToTextBuilder.webhook_id_set (self : SpeechToTextBuilder) (v : String) :
    SpeechToTextBuilder :=
  { self with webhook_id := some v }

/-- `SpeechToTextBuilder::temperature`. -/
def SpeechToTextBuilder.temperature_set (self : SpeechToTextBuilder) (v : F32) :
    SpeechToTextBuilder :=
  { self with temperature := some v }

/-- `SpeechToTextBuilder::seed`. -/
def SpeechToTextBuilder.seed_set (self : SpeechToTextBuilder) (v : Nat) :
    SpeechToTextBuilder :=
  { self with seed := some v }

/-- `SpeechToTextBuilder::use_multi_channel`. -/
def SpeechToTextBuilder.use_multi_channel_set (self : SpeechToTextBuilder) (v : Bool) :
    SpeechToTextBuilder :=
  { self with use_multi_channel := some v }

/-- `SpeechToTextBuilder::webhook_metadata`. -/
def SpeechToTextBuilder.webhook_metadata_set (self : SpeechToTextBuilder) (v : String) :
    SpeechToTextBuilder :=
  { self with webhook_metadata := some v }

/-- The `STTRequest` finalized by `SpeechToTextBuilder::execute`
(`src/lib.rs` lines 273-292): every field moved over as-is, with an unset
model identifier replaced by the default constant. -/
def SpeechToTextBuilder.toRequest (self : SpeechToTextBuilder) : STTRequest :=
  { file := self.file,
    model_id := self.model_id.getD SCRIBE_V1,
    language_code := self.language_code,
    tag_audio_events := self.tag_audio_events,
    num_speakers := self.num_speakers,
    timestamps_granularity := self.timestamps_granularity,
    diarize := self.diarize,
    diarization_threshold := self.diarization_threshold,
    cloud_storage_url := self.cloud_storage_url,
    webhook := self.webhook,
    webhook_id := self.webhook_id,
    temperature := self.temperature,
    seed := self.seed,
    use_multi_channel := self.use_multi_channel,
    webhook_metadata := self.webhook_metadata }

/-- `SpeechToTextBuilder::execute`: finalize the request and delegate to
`execute_stt` (network exchange supplied by the oracle). -/
def SpeechToTextBuilder.execute (self : SpeechToTextBuilder) (net : HttpOutcome) :
    Except ElevenLabsSTTError STTResponse :=
  execute_stt self.toRequest net

/-- One builder setter invocation together with its argument: the alphabet of
call sequences a caller can chain on a builder. -/
inductive SetterCall where
  | model (s : String)
  | language_code (s : String)
  | tag_audio_events (b : Bool)
  | num_speakers (n : Nat)
  | timestamps_granularity (s : String)
  | diarize (b : Bool)
  | diarization_threshold (x : F32)
  | cloud_storage_url (s : String)
  | webhook (b : Bool)
  | webhook_id (s : String)
  | temperature (x : F32)
  | seed (n : Nat)
  | use_multi_channel (b : Bool)
  | webhook_metadata (s : String)
deriving DecidableEq

/-- Perform one setter call on a builder. -/
def applyCall (b : SpeechToTextBuilder) : SetterCall → SpeechToTextBuilder
  | SetterCall.model s => b.model s
  | SetterCall.language_code s => b.language_code_set s
  | SetterCall.tag_audio_events v => b.tag_audio_events_set v
  | SetterCall.num_speakers n => b.num_speakers_set n
  | SetterCall.timestamps_granularity s => b.timestamps_granularity_set s
  | SetterCall.diarize v => b.diarize_set v
  | SetterCall.diarization_threshold x => b.diarization_threshold_set x
  | SetterCall.cloud_storage_url s => b.cloud_storage_url_set s
  | SetterCall.webhook v => b.webhook_set v
  | SetterCall.webhook_id s => b.webhook_id_set s
  | SetterCall.temperature x => b.temperature_set x
  | SetterCall.seed n => b.seed_set n
  | SetterCall.use_multi_channel v => b.use_multi_channel_set v
  | SetterCall.webhook_metadata s => b.webhook_metadata_set s

/-- Perform a sequence of setter calls, left to right. -/
def applyCalls (calls : List SetterCall) (b : SpeechToTextBuilder) :
    SpeechToTextBuilder :=
  calls.foldl applyCall b

/-- The last value a call sequence sets through the projection `f`
(e.g. `f` picks out the argument of `model` calls), or `none` when the
sequence never sets it: the specification-side notion of
"the last value set for that field". -/
def lastSet (f : SetterCall → Option α) : List SetterCall → Option α
  | [] => none
  | c :: cs =>
    match lastSet f cs with
    | some v => some v
    | none => f c

/-- Argument of a `model` call. -/
def modelArg : SetterCall → Option String
  | SetterCall.model s => some s
  | _ => none

/-- Argument of a `language_code` call. -/
def languageCodeArg : SetterCall → Option String
  | SetterCall.language_code s => some s
  | _ => none

/-- Argument of a `tag_audio_events` call. -/
def tagAudioEventsArg : SetterCall → Option Bool
  | SetterCall.tag_audio_events b => some b
  | _ => none

/-- Argument of a `num_speakers` call. -/
def numSpeakersArg : SetterCall → Option Nat
  | SetterCall.num_speakers n => some n
  | _ => none

/-- Argument of a `timestamps_granularity` call. -/
def timestampsGranularityArg : SetterCall → Option String
  | SetterCall.timestamps_granularity s => some s
  | _ => none

/-- Argument of a `diarize` call. -/
def diarizeArg : SetterCall → Option Bool
  | SetterCall.diarize b => some b
  | _ => none

/-- Argument of a `diarization_threshold` call. -/
def diarizationThresholdArg : SetterCall → Option F32
  | SetterCall.diarization_threshold x => some x
  | _ => none

/-- Argument of a `cloud_storage_url` call. -/
def cloudStorageUrlArg : SetterCall → Option String
  | SetterCall.cloud_storage_url s => some s
  | _ => none

/-- Argument of a `webhook` call. -/
def webhookArg : SetterCall → Option Bool
  | SetterCall.webhook b => some b
  | _ => none

/-- Argument of a `webhook_id` call. -/
def webhookIdArg : SetterCall → Option String
  | SetterCall.webhook_id s => some s
  | _ => none

/-- Argument of a `temperature` call. -/
def temperatureArg : SetterCall → Option F32
  | SetterCall.temperature x => some x
  | _ => none

/-- Argument of a `seed` call. -/
def seedArg : SetterCall → Option Nat
  | SetterCall.seed n => some n
  | _ => none

/-- Argument of a `use_multi_channel` call. -/
def useMultiChannelArg : SetterCall → Option Bool
  | SetterCall.use_multi_channel b => some b
  | _ => none

/-- Argument of a `webhook_metadata` call. -/
def webhookMetadataArg : SetterCall → Option String
  | SetterCall.webhook_metadata s => some s
  | _ => none

/-- A new optional value overriding an old one: keep the old value only when
the new one is absent. -/
def overrideWith (new : Option α) (old : Option α) : Option α :=
  match new with
  | some v => some v
  | none => old

/-- JSON values, at the tree level produced and consumed by `serde_json`.
Numbers carry the abstract `F32` value: `serde_json` renders a finite `f32`
with its shortest exact decimal form and parses it back to the same value, so
the tree-level number is the float itself. Non-finite floats never appear as
numbers: `serde_json` serializes them as `null` (see `serializeF32`). -/
inductive Json where
  | str (s : String)
  | num (x : F32)
  | bool (b : Bool)
  | null
  | arr (xs : List Json)
  | obj (fields : List (String × Json))

/-- `serde_json`'s serialization of an `f32` value
(`serde_json::Number::from_f64` composed with `Serializer::serialize_f32`):
a finite value becomes a JSON number; NaN and the infinities are serialized
as an explicit `null`. -/
def serializeF32 (x : F32) : Json :=
  if x.isFinite then Json.num x else Json.null

/-- One encoded struct field under serde's `skip_serializing_if =
"Option::is_none"`: present values contribute one key, absent values
contribute nothing (in particular, never an explicit `null`). -/
def optionalField (name : String) (v : Option Json) : List (String × Json) :=
  match v with
  | some j => [(name, j)]
  | none => []

/-- Serde-derived `Serialize` for `STTResponseWordCharacters`: present float
fields go through `serde_json`'s float serialization (`null` when
non-finite). -/
def encodeCharacters (c : STTResponseWordCharacters) : Json :=
  Json.obj (List.append (optionalField "text" (c.text.map Json.str))
    (List.append (optionalField "start" (c.start.map serializeF32))
      (optionalField "end" (c.«end».map serializeF32))))

/-- Serde-derived `Serialize` for `STTResponseWord` (the `type_field` member
is serialized under the name "type"). -/
def encodeWord (w : STTResponseWord) : Json :=
  Json.obj (List.append (optionalField "text" (w.text.map Json.str))
    (List.append (optionalField "start" (w.start.map serializeF32))
      (List.append (optionalField "end" (w.«end».map serializeF32))
        (List.append (optionalField "logprob" (w.logprob.map serializeF32))
          (List.append (optionalField "type" (w.type_field.map Json.str))
            (List.append (optionalField "speaker_id" (w.speaker_id.map Json.str))
              (optionalField "characters"
                (w.characters.map (fun cs => Json.arr (cs.map encodeCharacters))))))))))

/-- Serde-derived `Serialize` for `STTResponse`. -/
def encodeResponse (r : STTResponse) : Json :=
  Json.obj (List.append (optionalField "text" (r.text.map Json.str))
    (List.append (optionalField "language_code" (r.language_code.map Json.str))
      (List.append
        (optionalField "language_probability" (r.language_probability.map serializeF32))
        (optionalField "words" (r.words.map (fun ws => Json.arr (ws.map encodeWord)))))))

/-- Look up a field of a JSON object by name (first occurrence). -/
def getField (fields : List (String × Json)) (name : String) : Option Json :=
  match fields with
  | [] => none
  | p :: rest => if p.1 = name then some p.2 else getField rest name

/-- Serde deserialization of an `Option<String>` struct field: a missing key
or an explicit `null` gives `None`, a JSON string gives `Some`, anything else
is a type error. -/
def decodeOptString (v : Option Json) : Except String (Option String) :=
  match v with
  | none => Except.ok none
  | some Json.null => Except.ok none
  | some (Json.str s) => Except.ok (some s)
  | some _ => Except.error "invalid type: expected a string"

/-- Serde deserialization of an `Option<f32>` struct field. -/
def decodeOptF32 (v : Option Json) : Except String (Option F32) :=
  match v with
  | none => Except.ok none
  | some Json.null => Except.ok none
  | some (Json.num x) => Except.ok (some x)
  | some _ => Except.error "invalid type: expected a number"

/-- Serde-derived `Deserialize` for `STTResponseWordCharacters`. -/
def decodeCharacters (j : Json) : Except String STTResponseWordCharacters :=
  match j with
  | Json.obj fields => do
    let text ← decodeOptString (getField fields "text")
    let start ← decodeOptF32 (getField fields "start")
    let endv ← decodeOptF32 (getField fields "end")
    Except.ok { text := text, start := start, «end» := endv }
  | _ => Except.error "invalid type: expected an object"

/-- Serde deserialization of a JSON sequence, element by element, failing on
the first element that fails. -/
def decodeSeq (dec : Json → Except String α) : List Json → Except String (List α)
  | [] => Except.ok []
  | x :: xs => do
    let y ← dec x
    let ys ← decodeSeq dec xs
    Except.ok (y :: ys)

/-- Serde deserialization of an `Option<Vec<T>>` struct field, given the
element deserializer. -/
def decodeOptList (dec : Json → Except String α) (v : Option Json) :
    Except String (Option (List α)) :=
  match v with
  | none => Except.ok none
  | some Json.null => Except.ok none
  | some (Json.arr xs) => do
    let ys ← decodeSeq dec xs
    Except.ok (some ys)
  | some _ => Except.error "invalid type: expected an array"

/-- Serde-derived `Deserialize` for `STTResponseWord`. -/
def decodeWord (j : Json) : Except String STTResponseWord :=
  match j with
  | Json.obj fields => do
    let text ← decodeOptString (getField fields "text")
    let start ← decodeOptF32 (getField fields "start")
    let endv ← decodeOptF32 (getField fields "end")
    let logprob ← decodeOptF32 (getField fields "logprob")
    let type_field ← decodeOptString (getField fields "type")
    let speaker_id ← decodeOptString (getField fields "speaker_id")
    let characters ← decodeOptList decodeCharacters (getField fields "characters")
    Except.ok { text := text, start := start, «end» := endv, logprob := logprob,
                type_field := type_field, speaker_id := speaker_id,
                characters := characters }
  | _ => Except.error "invalid type: expected an object"

/-- Serde-derived `Deserialize` for `STTResponse`. -/
def decodeResponse (j : Json) : Except String STTResponse :=
  match j with
  | Json.obj fields => do
    let text ← decodeOptString (getField fields "text")
    let language_code ← decodeOptString (getField fields "language_code")
    let language_probability ← decodeOptF32 (getField fields "language_probability")
    let words ← decodeOptList decodeWord (getField fields "words")
    Except.ok { text := text, language_code := language_code,
                language_probability := language_probability, words := words }
  | _ => Except.error "invalid type: expected an object"

/-- Whether an optional float field, if populated, holds a finite value. -/
def finiteOpt (v : Option F32) : Bool :=
  match v with
  | none => true
  | some x => x.isFinite

/-- Whether every element of an optional list satisfies the predicate. -/
def optListAll (p : α → Bool) (v : Option (List α)) : Bool :=
  match v with
  | none => true
  | some xs => xs.all p

/-- Whether every populated float field of a `Character` entry is finite. -/
def charactersAllFinite (c : STTResponseWordCharacters) : Bool :=
  finiteOpt c.start && finiteOpt c.«end»

/-- Whether every populated float field of a `Word` entry (and of its
`Character` entries) is finite. -/
def wordAllFinite (w : STTResponseWord) : Bool :=
  finiteOpt w.start && finiteOpt w.«end» && finiteOpt w.logprob &&
    optListAll charactersAllFinite w.characters

/-- Whether every populated float field anywhere in a `Response` value is
finite - the domain on which `serde_json` emits a number rather than `null`
for each populated float. -/
def responseAllFinite (r : STTResponse) : Bool :=
  finiteOpt r.language_probability && optListAll wordAllFinite r.words

mutual

/-- Whether a JSON tree contains an explicit `null` anywhere. -/
def Json.hasNull : Json → Bool
  | Json.null => true
  | Json.str _ => false
  | Json.num _ => false
  | Json.bool _ => false
  | Json.arr xs => jsonListHasNull xs
  | Json.obj fields => jsonFieldsHasNull fields

/-- `hasNull` over a list of JSON values. -/
def jsonListHasNull : List Json → Bool
  | [] => false
  | x :: xs => x.hasNull || jsonListHasNull xs

/-- `hasNull` over the fields of a JSON object. -/
def jsonFieldsHasNull : List (String × Json) → Bool
  | [] => false
  | p :: ps => p.2.hasNull || jsonFieldsHasNull ps

end

/-- Number of entries of a form that carry the given part name. -/
def countName : List (String × FormValue) → String → Nat
  | [], _ => 0
  | p :: ps, name => (if p.1 = name then 1 else 0) + countName ps name

/-- The request finalized by `execute()` after a caller chains the given
setter calls on the builder returned by `speech_to_text` on a fresh client. -/
def builtRequest (api_key : String) (payload : Option (List Nat))
    (calls : List SetterCall) : STTRequest :=
  (applyCalls calls ((ElevenLabsSTTClient.new api_key).speech_to_text payload)).toRequest

lemma mime_octet_valid : isValidMime "application/octet-stream" = true := by decide

lemma mime_str_octet (d : List Nat) :
    ((Part.bytes d).file_name "file").mime_str "application/octet-stream" =
      Except.ok { data := d, fileName := some "file",
                  mime := some "application/octet-stream" } := by
  simp [Part.bytes, Part.file_name, Part.mime_str, mime_octet_valid]

lemma fileFormStep_none (form : Form) : fileFormStep form none = Except.ok form := rfl

lemma fileFormStep_some (form : Form) (d : List Nat) :
    fileFormStep form (some d) =
      Except.ok (form.part "file"
        { data := d, fileName := some "file",
          mime := some "application/octet-stream" }) := by
  simp [fileFormStep, mime_str_octet]

/-- The form `execute_stt` would send, as a total function: `model_id` first,
then the optional file part, then the present optional fields. -/
def builtForm (request : STTRequest) : Form :=
  addRequestFields (request_fields request)
    (match request.file with
     | none => Form.new.text "model_id" request.model_id
     | some d => (Form.new.text "model_id" request.model_id).part "file"
         { data := d, fileName := some "file",
           mime := some "application/octet-stream" })

lemma buildForm_eq (request : STTRequest) :
    buildForm request = Except.ok (builtForm request) := by
  cases hf : request.file with
  | none => simp [buildForm, builtForm, hf, fileFormStep_none]
  | some d => simp [buildForm, builtForm, hf, fileFormStep_some]

lemma addRequestFields_cons (kv : String × Option String)
    (rest : List (String × Option String)) (form : Form) :
    addRequestFields (kv :: rest) form =
      addRequestFields rest
        (match kv.2 with
         | some val => form.text kv.1 val
         | none => form) := rfl

lemma mem_addRequestFields_of_mem {x : String × FormValue}
    (fields : List (String × Option String)) (form : List (String × FormValue))
    (hx : x ∈ form) : x ∈ addRequestFields fields form := by
  induction fields generalizing form with
  | nil => exact hx
  | cons kv rest ih =>
    rw [addRequestFields_cons]
    cases hv : kv.2 with
    | none => simpa [hv] using ih form hx
    | some val =>
      simp only [hv]
      exact ih _ (by simp [Form.text, hx])

lemma mem_addRequestFields_of_field {k : String} {v : String}
    (fields : List (String × Option String)) (form : List (String × FormValue))
    (hkv : (k, some v) ∈ fields) :
    (k, FormValue.text v) ∈ addRequestFields fields form := by
  induction fields generalizing form with
  | nil => cases hkv
  | cons kv rest ih =>
    rw [addRequestFields_cons]
    rcases List.mem_cons.mp hkv with heq | hrest
    · subst heq
      exact mem_addRequestFields_of_mem rest _ (by simp [Form.text])
    · cases hv : kv.2 with
      | none => simpa [hv] using ih _ hrest
      | some val => simpa [hv] using ih _ hrest

lemma countName_append (l1 l2 : List (String × FormValue)) (name : String) :
    countName (l1 ++ l2) name = countName l1 name + countName l2 name := by
  induction l1 with
  | nil => simp [countName]
  | cons p ps ih =>
    simp only [List.cons_append, countName, List.append_eq, ih]
    omega

lemma countName_addRequestFields (fields : List (String × Option String))
    (form : List (String × FormValue)) (name : String)
    (hk : ∀ kv ∈ fields, kv.1 ≠ name) :
    countName (addRequestFields fields form) name = countName form name := by
  induction fields generalizing form with
  | nil => rfl
  | cons kv rest ih =>
    rw [addRequestFields_cons]
    have hkv : kv.1 ≠ name := hk kv (List.mem_cons_self kv rest)
    have hrest : ∀ kv ∈ rest, kv.1 ≠ name := fun x hx => hk x (List.mem_cons_of_mem kv hx)
    cases hv : kv.2 with
    | none => simpa [hv] using ih _ hrest
    | some val =>
      simp only [hv]
      rw [ih _ hrest]
      simp [Form.text, List.append_eq, countName_append, countName, hkv]

lemma request_fields_keys (request : STTRequest) :
    (request_fields request).map Prod.fst =
      ["language_code", "tag_audio_events", "num_speakers", "timestamps_granularity",
       "diarize", "diarization_threshold", "cloud_storage_url", "webhook",
       "webhook_id", "temperature", "seed", "use_multi_channel", "webhook_metadata"] := rfl

lemma request_fields_key_ne_file (request : STTRequest) :
    ∀ kv ∈ request_fields request, kv.1 ≠ "file" := by
  intro kv h
  have hm : kv.1 ∈ (request_fields request).map Prod.fst := List.mem_map_of_mem Prod.fst h
  rw [request_fields_keys] at hm
  simp only [List.mem_cons, List.not_mem_nil, or_false] at hm
  rcases hm with h1 | h1 | h1 | h1 | h1 | h1 | h1 | h1 | h1 | h1 | h1 | h1 | h1 <;>
    rw [h1] <;> decide

lemma overrideWith_none (o : Option α) : overrideWith o none = o := by
  cases o <;> rfl

lemma applyCalls_nil (b : SpeechToTextBuilder) : applyCalls [] b = b := rfl

lemma applyCalls_cons (c : SetterCall) (cs : List SetterCall) (b : SpeechToTextBuilder) :
    applyCalls (c :: cs) b = applyCalls cs (applyCall b c) := rfl

lemma applyCalls_getter {α : Type} (g : SpeechToTextBuilder → Option α)
    (f : SetterCall → Option α)
    (hc : ∀ b c, g (applyCall b c) = overrideWith (f c) (g b)) :
    ∀ (calls : List SetterCall) (b : SpeechToTextBuilder),
      g (applyCalls calls b) = overrideWith (lastSet f calls) (g b) := by
  intro calls
  induction calls with
  | nil => intro b; simp [applyCalls_nil, lastSet, overrideWith]
  | cons c cs ih =>
    intro b
    rw [applyCalls_cons, ih (applyCall b c), hc]
    cases hcs : lastSet f cs with
    | some v => simp [lastSet, hcs, overrideWith]
    | none => simp [lastSet, hcs, overrideWith]

lemma applyCalls_file (calls : List SetterCall) (b : SpeechToTextBuilder) :
    (applyCalls calls b).file = b.file := by
  induction calls generalizing b with
  | nil => rfl
  | cons c cs ih =>
    rw [applyCalls_cons, ih]
    cases c <;> rfl

lemma applyCalls_model_id (calls : List SetterCall) (b : SpeechToTextBuilder) :
    (applyCalls calls b).model_id = overrideWith (lastSet modelArg calls) b.model_id :=
  applyCalls_getter (fun b => b.model_id) modelArg
    (by intro b c; cases c <;> rfl) calls b

lemma applyCalls_language_code (calls : List SetterCall) (b : SpeechToTextBuilder) :
    (applyCalls calls b).language_code =
      overrideWith (lastSet languageCodeArg calls) b.language_code :=
  applyCalls_getter (fun b => b.language_code) languageCodeArg
    (by intro b c; cases c <;> rfl) calls b

lemma applyCalls_tag_audio_events (calls : List SetterCall) (b : SpeechToTextBuilder) :
    (applyCalls calls b).tag_audio_events =
      overrideWith (lastSet tagAudioEventsArg calls) b.tag_audio_events :=
  applyCalls_getter (fun b => b.tag_audio_events) tagAudioEventsArg
    (by intro b c; cases c <;> rfl) calls b

lemma applyCalls_num_speakers (calls : List SetterCall) (b : SpeechToTextBuilder) :
    (applyCalls calls b).num_speakers =
      overrideWith (lastSet numSpeakersArg calls) b.num_speakers :=
  applyCalls_getter (fun b => b.num_speakers) numSpeakersArg
    (by intro b c; cases c <;> rfl) calls b

lemma applyCalls_timestamps_granularity (calls : List SetterCall) (b : SpeechToTextBuilder) :
    (applyCalls calls b).timestamps_granularity =
      overrideWith (lastSet timestampsGranularityArg calls) b.timestamps_granularity :=
  applyCalls_getter (fun b => b.timestamps_granularity) timestampsGranularityArg
    (by intro b c; cases c <;> rfl) calls b

lemma applyCalls_diarize (calls : List SetterCall) (b : SpeechToTextBuilder) :
    (applyCalls calls b).diarize = overrideWith (lastSet diarizeArg calls) b.diarize :=
  applyCalls_getter (fun b => b.diarize) diarizeArg
    (by intro b c; cases c <;> rfl) calls b

lemma applyCalls_diarization_threshold (calls : List SetterCall) (b : SpeechToTextBuilder) :
    (applyCalls calls b).diarization_threshold =
      overrideWith (lastSet diarizationThresholdArg calls) b.diarization_threshold :=
  applyCalls_getter (fun b => b.diarization_threshold) diarizationThresholdArg
    (by intro b c; cases c <;> rfl) calls b

lemma applyCalls_cloud_storage_url (calls : List SetterCall) (b : SpeechToTextBuilder) :
    (applyCalls calls b).cloud_storage_url =
      overrideWith (lastSet cloudStorageUrlArg calls) b.cloud_storage_url :=
  applyCalls_getter (fun b => b.cloud_storage_url) cloudStorageUrlArg
    (by intro b c; cases c <;> rfl) calls b

lemma applyCalls_webhook (calls : List SetterCall) (b : SpeechToTextBuilder) :
    (applyCalls calls b).webhook = overrideWith (lastSet webhookArg calls) b.webhook :=
  applyCalls_getter (fun b => b.webhook) webhookArg
    (by intro b c; cases c <;> rfl) calls b

lemma applyCalls_webhook_id (calls : List SetterCall) (b : SpeechToTextBuilder) :
    (applyCalls calls b).webhook_id =
      overrideWith (lastSet webhookIdArg calls) b.webhook_id :=
  applyCalls_getter (fun b => b.webhook_id) webhookIdArg
    (by intro b c; cases c <;> rfl) calls b

lemma applyCalls_temperature (calls : List SetterCall) (b : SpeechToTextBuilder) :
    (applyCalls calls b).temperature =
      overrideWith (lastSet temperatureArg calls) b.temperature :=
  applyCalls_getter (fun b => b.temperature) temperatureArg
    (by intro b c; cases c <;> rfl) calls b

lemma applyCalls_seed (calls : List SetterCall) (b : SpeechToTextBuilder) :
    (applyCalls calls b).seed = overrideWith (lastSet seedArg calls) b.seed :=
  applyCalls_getter (fun b => b.seed) seedArg
    (by intro b c; cases c <;> rfl) calls b

lemma applyCalls_use_multi_channel (calls : List SetterCall) (b : SpeechToTextBuilder) :
    (applyCalls calls b).use_multi_channel =
      overrideWith (lastSet useMultiChannelArg calls) b.use_multi_channel :=
  applyCalls_getter (fun b => b.use_multi_channel) useMultiChannelArg
    (by intro b c; cases c <;> rfl) calls b

lemma applyCalls_webhook_metadata (calls : List SetterCall) (b : SpeechToTextBuilder) :
    (applyCalls calls b).webhook_metadata =
      overrideWith (lastSet webhookMetadataArg calls) b.webhook_metadata :=
  applyCalls_getter (fun b => b.webhook_metadata) webhookMetadataArg
    (by intro b c; cases c <;> rfl) calls b

/-- A decode failure as `reqwest` would report it, used as a concrete input. -/
def decodeFailure : ReqwestError :=
  { status := none, message := "error decoding response body" }

/-- The request finalized from a fresh builder with no payload and no setter
calls, used as a concrete input. -/
def plainRequest : STTRequest := builtRequest "k1" none []

/-- Claim C1, corrected. The claim as frozen says an `execute()` call that
receives an HTTP 401 / 402 / 429 response yields the authentication-failure /
quota-exceeded / rate-limit error kind. On the code, `execute_stt` maps every
non-success HTTP status - 401, 402 and 429 included - to the generic
`ApiError` kind carrying the status and body text; the status classification
described by the claim lives in `From<reqwest::Error>` and is applied only to
`send()` errors (which carry no HTTP status), not to received responses. This
theorem proves the amended statement: every received non-success status yields
`ApiError` with the exact status and body regardless of body content, and the
`From` conversion classifies a status-carrying error exactly as the claim's
table says (401 to authentication failure, 402 to quota exceeded, 429 to rate
limit with message "Too many requests" and absent retry-after). -/
theorem C1_amended_classification :
    (∀ (request : STTRequest) (body : String) (json : Except ReqwestError STTResponse)
        (status : Nat), isSuccessStatus status = false →
          execute_stt request (HttpOutcome.response status (Except.ok body) json) =
            Except.error (ElevenLabsSTTError.ApiError status body)) ∧
    (∀ m : String,
        ElevenLabsSTTError.fromReqwest { status := some 401, message := m } =
          ElevenLabsSTTError.AuthenticationError "Invalid API key") ∧
    (∀ m : String,
        ElevenLabsSTTError.fromReqwest { status := some 402, message := m } =
          ElevenLabsSTTError.QuotaExceededError "Insufficient credits") ∧
    (∀ m : String,
        ElevenLabsSTTError.fromReqwest { status := some 429, message := m } =
          ElevenLabsSTTError.RateLimitError none "Too many requests") := by
  refine ⟨?_, fun m => rfl, fun m => rfl, fun m => rfl⟩
  intro request body json status hs
  simp [execute_stt, buildForm_eq, hs]

/-- Claim C1, witness for the amended theorem: a 402 response with body
"no credits" yields `ApiError 402 "no credits"`, and the `From` conversion
maps a 401-carrying error to the authentication failure. -/
theorem C1_witness :
    execute_stt plainRequest
        (HttpOutcome.response 402 (Except.ok "no credits") (Except.error decodeFailure)) =
      Except.error (ElevenLabsSTTError.ApiError 402 "no credits") ∧
    ElevenLabsSTTError.fromReqwest { status := some 401, message := "m" } =
      ElevenLabsSTTError.AuthenticationError "Invalid API key" :=
  ⟨C1_amended_classification.1 plainRequest "no credits" (Except.error decodeFailure) 402
      (by decide),
   C1_amended_classification.2.1 "m"⟩

/-- Claim C1, counterexample to the frozen claim (the spec's own scenario):
the server returns HTTP 429 with body "slow down"; the resulting error is the
generic `ApiError 429 "slow down"` and not the rate-limit kind the claim
requires. -/
theorem C1_counterexample :
    execute_stt plainRequest
        (HttpOutcome.response 429 (Except.ok "slow down") (Except.error decodeFailure)) =
      Except.error (ElevenLabsSTTError.ApiError 429 "slow down") ∧
    (match execute_stt plainRequest
        (HttpOutcome.response 429 (Except.ok "slow down") (Except.error decodeFailure)) with
     | Except.error (ElevenLabsSTTError.RateLimitError _ _) => False
     | _ => True) :=
  ⟨rfl, trivial⟩

/-- Claim C2: an `execute()` call receiving a non-success HTTP status that is
none of 401, 402, 429 yields the generic `ApiError` kind carrying exactly the
numeric status received and the response body text received. -/
theorem C2_generic_api_error (request : STTRequest) (status : Nat) (body : String)
    (json : Except ReqwestError STTResponse)
    (hs : isSuccessStatus status = false)
    (_h401 : status ≠ 401) (_h402 : status ≠ 402) (_h429 : status ≠ 429) :
    execute_stt request (HttpOutcome.response status (Except.ok body) json) =
      Except.error (ElevenLabsSTTError.ApiError status body) := by
  simp [execute_stt, buildForm_eq, hs]

/-- Claim C2, witness: a 500 response with body "oops" yields
`ApiError 500 "oops"`. -/
theorem C2_witness :
    execute_stt plainRequest
        (HttpOutcome.response 500 (Except.ok "oops") (Except.error decodeFailure)) =
      Except.error (ElevenLabsSTTError.ApiError 500 "oops") :=
  C2_generic_api_error plainRequest 500 "oops" (Except.error decodeFailure)
    (by decide) (by decide) (by decide) (by decide)

/-- Claim C7: on a success HTTP status, `execute()` returns exactly what the
JSON decode of the body yields - the decoded `STTResponse` on success, and a
`ParseError` wrapping the underlying decode cause on failure (never a
defaulted response). -/
theorem C7_parse_result (request : STTRequest) (status : Nat)
    (bodyText : Except ReqwestError String) (json : Except ReqwestError STTResponse)
    (hs : isSuccessStatus status = true) :
    execute_stt request (HttpOutcome.response status bodyText json) =
      (match json with
       | Except.ok r => Except.ok r
       | Except.error e => Except.error (ElevenLabsSTTError.ParseError e)) := by
  cases json <;> simp [execute_stt, buildForm_eq, hs]

/-- Claim C7, witness: a 200 response decoding to a response with
text "hello" is returned as-is, and a 200 response whose body fails to
decode yields `ParseError` with that cause. -/
theorem C7_witness :
    execute_stt plainRequest
        (HttpOutcome.response 200 (Except.ok "")
          (Except.ok { text := some "hello", language_code := none,
                       language_probability := none, words := none })) =
      Except.ok { text := some "hello", language_code := none,
                  language_probability := none, words := none } ∧
    execute_stt plainRequest
        (HttpOutcome.response 200 (Except.ok "") (Except.error decodeFailure)) =
      Except.error (ElevenLabsSTTError.ParseError decodeFailure) :=
  ⟨C7_parse_result plainRequest 200 (Except.ok "")
      (Except.ok { text := some "hello", language_code := none,
                   language_probability := none, words := none }) (by decide),
   C7_parse_result plainRequest 200 (Except.ok "") (Except.error decodeFailure)
      (by decide)⟩

/-- Claim C9: the error branch guarding construction of the "file" multipart
part is unreachable. Building the part with the fixed MIME string
"application/octet-stream" succeeds for every payload, the whole form build
succeeds for every request, and `execute_stt` never returns the request-error
kind once an HTTP response has been received. -/
theorem C9_file_part_infallible :
    (∀ data : List Nat,
        ((Part.bytes data).file_name "file").mime_str "application/octet-stream" =
          Except.ok { data := data, fileName := some "file",
                      mime := some "application/octet-stream" }) ∧
    (∀ request : STTRequest, ∃ f : Form, buildForm request = Except.ok f) ∧
    (∀ (request : STTRequest) (status : Nat) (bodyText : Except ReqwestError String)
        (json : Except ReqwestError STTResponse) (e : ReqwestError),
        execute_stt request (HttpOutcome.response status bodyText json) ≠
          Except.error (ElevenLabsSTTError.RequestError e)) := by
  refine ⟨mime_str_octet, fun request => ⟨builtForm request, buildForm_eq request⟩, ?_⟩
  intro request status bodyText json e h
  by_cases hs : isSuccessStatus status
  · cases json <;> simp [execute_stt, buildForm_eq, hs] at h
  · rw [Bool.not_eq_true] at hs
    simp only [execute_stt, buildForm_eq, hs] at h
    cases bodyText <;> simp at h

/-- Claim C10: when the HTTP status is non-success and reading the body text
itself fails, the result is still the generic `ApiError` carrying the status,
with the message defaulted to the empty string. -/
theorem C10_body_read_failure (request : STTRequest) (status : Nat) (e : ReqwestError)
    (json : Except ReqwestError STTResponse) (hs : isSuccessStatus status = false) :
    execute_stt request (HttpOutcome.response status (Except.error e) json) =
      Except.error (ElevenLabsSTTError.ApiError status "") := by
  simp [execute_stt, buildForm_eq, hs]

/-- Claim C10, witness: a 503 response whose body read fails yields
`ApiError 503 ""`. -/
theorem C10_witness :
    execute_stt plainRequest
        (HttpOutcome.response 503 (Except.error decodeFailure) (Except.error decodeFailure)) =
      Except.error (ElevenLabsSTTError.ApiError 503 "") :=
  C10_body_read_failure plainRequest 503 decodeFailure (Except.error decodeFailure)
    (by decide)

/-- Claim C3: neither the builder setters nor `execute()` validate parameter
combinations. With `diarize=true` and a threshold set, the threshold field is
serialized into the multipart body; with `num_speakers` also set, both fields
are serialized as-is; and no operation ever produces the validation-failure
error kind. -/
theorem C3_no_validation :
    (∀ (request : STTRequest) (f : Form) (x : F32),
        buildForm request = Except.ok f →
        request.diarize = some true →
        request.diarization_threshold = some x →
        ("diarization_threshold", FormValue.text (F32.toString x)) ∈ f) ∧
    (∀ (request : STTRequest) (f : Form) (n : Nat),
        buildForm request = Except.ok f →
        request.diarize = some true →
        request.num_speakers = some n →
        ("num_speakers", FormValue.text (toString n)) ∈ f) ∧
    (∀ (request : STTRequest) (net : HttpOutcome) (msg : String),
        execute_stt request net ≠ Except.error (ElevenLabsSTTError.ValidationError msg)) := by
  refine ⟨?_, ?_, ?_⟩
  · intro request f x hf _hdia hthr
    rw [buildForm_eq] at hf
    injection hf with hf
    subst hf
    simp only [builtForm]
    apply mem_addRequestFields_of_field
    simp [request_fields, hthr]
  · intro request f n hf _hdia hnum
    rw [buildForm_eq] at hf
    injection hf with hf
    subst hf
    simp only [builtForm]
    apply mem_addRequestFields_of_field
    simp [request_fields, hnum]
  · intro request net msg h
    cases net with
    | sendFailure e =>
      simp only [execute_stt, buildForm_eq] at h
      injection h with h
      cases he : e.status with
      | none => simp [ElevenLabsSTTError.fromReqwest, he] at h
      | some s =>
        simp only [ElevenLabsSTTError.fromReqwest, he] at h
        split_ifs at h
    | response status bodyText json =>
      by_cases hs : isSuccessStatus status
      · cases json <;> simp [execute_stt, buildForm_eq, hs] at h
      · rw [Bool.not_eq_true] at hs
        simp only [execute_stt, buildForm_eq, hs] at h
        cases bodyText <;> simp at h

/-- The request finalized after chaining `diarize(true)`,
`diarization_threshold(0.22)` and `num_speakers(5)`, a parameter combination
the service documents as mutually exclusive. -/
def diarizeRequest : STTRequest :=
  builtRequest "k1" none
    [SetterCall.diarize true, SetterCall.diarization_threshold { repr := "0.22" },
     SetterCall.num_speakers 5]

/-- The multipart form `execute_stt` builds for `diarizeRequest`. -/
def diarizeForm : Form :=
  [("model_id", FormValue.text "scribe_v1"), ("num_speakers", FormValue.text "5"),
   ("diarize", FormValue.text "true"), ("diarization_threshold", FormValue.text "0.22")]

/-- Claim C3, witness: with diarize, threshold and speaker count all set, both
the threshold and the speaker count appear in the serialized form, and a
validation error is not produced. -/
theorem C3_witness :
    ("diarization_threshold", FormValue.text "0.22") ∈ diarizeForm ∧
    ("num_speakers", FormValue.text "5") ∈ diarizeForm ∧
    execute_stt diarizeRequest
        (HttpOutcome.response 200 (Except.ok "") (Except.error decodeFailure)) ≠
      Except.error (ElevenLabsSTTError.ValidationError "invalid") :=
  ⟨C3_no_validation.1 diarizeRequest diarizeForm { repr := "0.22" }
      (by decide) (by decide) (by decide),
   C3_no_validation.2.1 diarizeRequest diarizeForm 5
      (by decide) (by decide) (by decide),
   C3_no_validation.2.2 diarizeRequest
      (HttpOutcome.response 200 (Except.ok "") (Except.error decodeFailure)) "invalid"⟩

/-- Claim C4: the multipart body contains exactly one part named "file" if
and only if a payload was supplied to `speech_to_text`; with no payload, no
part named "file" appears. -/
theorem C4_file_part_iff_payload (api_key : String) (payload : Option (List Nat))
    (calls : List SetterCall) (f : Form)
    (hf : buildForm (builtRequest api_key payload calls) = Except.ok f) :
    countName f "file" = (if payload.isSome then 1 else 0) := by
  rw [buildForm_eq] at hf
  injection hf with hf
  subst hf
  simp only [builtForm]
  rw [countName_addRequestFields _ _ _ (request_fields_key_ne_file _)]
  have hfile : (builtRequest api_key payload calls).file = payload := by
    simp [builtRequest, SpeechToTextBuilder.toRequest, ElevenLabsSTTClient.speech_to_text,
      applyCalls_file, SpeechToTextBuilder.new]
  rw [hfile]
  have hne : ("model_id" : String) ≠ "file" := by decide
  cases payload with
  | none => simp [Form.new, Form.text, countName, hne]
  | some d =>
    simp [Form.new, Form.text, Form.part, List.append_eq, countName_append, countName, hne]

/-- Claim C4, witness: with a payload the built form carries one "file" part;
with no payload it carries none. -/
theorem C4_witness :
    countName
        [("model_id", FormValue.text "scribe_v1"),
         ("file", FormValue.part { data := [1, 2, 3], fileName := some "file",
                                   mime := some "application/octet-stream" })] "file" = 1 ∧
    countName [("model_id", FormValue.text "scribe_v1")] "file" = 0 :=
  ⟨C4_file_part_iff_payload "k1" (some [1, 2, 3]) [] _ (by decide),
   C4_file_part_iff_payload "k1" none [] _ (by decide)⟩

/-- Claim C5: the multipart body always contains a `model_id` text field
carrying the finalized request's model identifier; the finalized identifier is
the last value set on the builder, or the fixed default constant `scribe_v1`
when the caller never set one. -/
theorem C5_model_id_always_present :
    (∀ (request : STTRequest) (f : Form), buildForm request = Except.ok f →
        ("model_id", FormValue.text request.model_id) ∈ f) ∧
    (∀ (api_key : String) (payload : Option (List Nat)) (calls : List SetterCall),
        (builtRequest api_key payload calls).model_id =
          (lastSet modelArg calls).getD SCRIBE_V1) ∧
    SCRIBE_V1 = "scribe_v1" := by
  refine ⟨?_, ?_, rfl⟩
  · intro request f hf
    rw [buildForm_eq] at hf
    injection hf with hf
    subst hf
    simp only [builtForm]
    apply mem_addRequestFields_of_mem
    cases request.file <;> simp [Form.new, Form.text, Form.part]
  · intro api_key payload calls
    simp [builtRequest, SpeechToTextBuilder.toRequest, ElevenLabsSTTClient.speech_to_text,
      applyCalls_model_id, SpeechToTextBuilder.new, overrideWith_none]

/-- Claim C5, witness: the form built for a fresh builder with no setter calls
carries the text field `model_id=scribe_v1`. -/
theorem C5_witness :
    ("model_id", FormValue.text "scribe_v1") ∈
      ([("model_id", FormValue.text "scribe_v1")] : Form) :=
  C5_model_id_always_present.1 plainRequest
    [("model_id", FormValue.text "scribe_v1")] (by decide)

/-- Claim C6, corrected. The claim as frozen says every field never set by
the setter sequence is absent in the finalized request; the `model_id` field
falsifies this, since `execute()` fills it with the default constant
`scribe_v1` when never set. The amended statement proved here: for any setter
sequence on a fresh builder, every optional parameter field of the finalized
request is exactly the last value set for it, or absent when never set; the
`file` field is exactly the payload given to `speech_to_text`; and `model_id`
is the last value set, or the default `scribe_v1` (not absent) when never
set. -/
theorem C6_last_write_wins (api_key : String) (payload : Option (List Nat))
    (calls : List SetterCall) :
    (builtRequest api_key payload calls).file = payload ∧
    (builtRequest api_key payload calls).model_id =
      (lastSet modelArg calls).getD SCRIBE_V1 ∧
    (builtRequest api_key payload calls).language_code = lastSet languageCodeArg calls ∧
    (builtRequest api_key payload calls).tag_audio_events = lastSet tagAudioEventsArg calls ∧
    (builtRequest api_key payload calls).num_speakers = lastSet numSpeakersArg calls ∧
    (builtRequest api_key payload calls).timestamps_granularity =
      lastSet timestampsGranularityArg calls ∧
    (builtRequest api_key payload calls).diarize = lastSet diarizeArg calls ∧
    (builtRequest api_key payload calls).diarization_threshold =
      lastSet diarizationThresholdArg calls ∧
    (builtRequest api_key payload calls).cloud_storage_url =
      lastSet cloudStorageUrlArg calls ∧
    (builtRequest api_key payload calls).webhook = lastSet webhookArg calls ∧
    (builtRequest api_key payload calls).webhook_id = lastSet webhookIdArg calls ∧
    (builtRequest api_key payload calls).temperature = lastSet temperatureArg calls ∧
    (builtRequest api_key payload calls).seed = lastSet seedArg calls ∧
    (builtRequest api_key payload calls).use_multi_channel =
      lastSet useMultiChannelArg calls ∧
    (builtRequest api_key payload calls).webhook_metadata =
      lastSet webhookMetadataArg calls := by
  simp [builtRequest, SpeechToTextBuilder.toRequest, ElevenLabsSTTClient.speech_to_text,
    SpeechToTextBuilder.new, overrideWith_none, applyCalls_file, applyCalls_model_id,
    applyCalls_language_code, applyCalls_tag_audio_events, applyCalls_num_speakers,
    applyCalls_timestamps_granularity, applyCalls_diarize, applyCalls_diarization_threshold,
    applyCalls_cloud_storage_url, applyCalls_webhook, applyCalls_webhook_id,
    applyCalls_temperature, applyCalls_seed, applyCalls_use_multi_channel,
    applyCalls_webhook_metadata]

/-- Claim C6, counterexample to the frozen claim: after the empty setter
sequence, the finalized request's `model_id` field carries the value
"scribe_v1" even though the sequence set no value for it - a never-set field
that is not absent in the finalized request. -/
theorem C6_counterexample :
    (builtRequest "k1" none []).model_id = "scribe_v1" ∧
    lastSet modelArg ([] : List SetterCall) = none :=
  ⟨rfl, rfl⟩

@[simp] lemma exceptOkBind {ε : Type} {α β : Type} (a : α) (f : α → Except ε β) :
    (Except.ok a >>= f : Except ε β) = f a := rfl

@[simp] lemma getField_nil (name : String) : getField [] name = none := rfl

@[simp] lemma getField_optionalField_self (n : String) (v : Option Json) :
    getField (optionalField n v) n = v := by
  cases v <;> simp [optionalField, getField]

@[simp] lemma getField_optionalField_skip (n : String) (v : Option Json) (m : String)
    (h : ¬ n = m) : getField (optionalField n v) m = none := by
  cases v <;> simp [optionalField, getField, h]

@[simp] lemma getField_append_self (n : String) (v : Option Json)
    (rest : List (String × Json)) (hrest : getField rest n = none) :
    getField (optionalField n v ++ rest) n = v := by
  cases v <;> simp [optionalField, getField, hrest]

@[simp] lemma getField_append_skip (n : String) (v : Option Json)
    (rest : List (String × Json)) (m : String) (h : ¬ n = m) :
    getField (optionalField n v ++ rest) m = getField rest m := by
  cases v <;> simp [optionalField, getField, h]

@[simp] lemma decodeOptString_mapStr (v : Option String) :
    decodeOptString (v.map Json.str) = Except.ok v := by
  cases v <;> rfl

lemma decodeOptF32_serialize (v : Option F32) (h : finiteOpt v = true) :
    decodeOptF32 (v.map serializeF32) = Except.ok v := by
  cases v with
  | none => rfl
  | some x =>
    simp only [finiteOpt] at h
    simp [serializeF32, h, decodeOptF32]

lemma decodeSeq_encode {α : Type} (dec : Json → Except String α) (enc : α → Json)
    (xs : List α) (h : ∀ a ∈ xs, dec (enc a) = Except.ok a) :
    decodeSeq dec (xs.map enc) = Except.ok xs := by
  induction xs with
  | nil => rfl
  | cons x rest ih =>
    have hx := h x (List.mem_cons_self x rest)
    have hr : ∀ a ∈ rest, dec (enc a) = Except.ok a :=
      fun a ha => h a (List.mem_cons_of_mem x ha)
    simp [decodeSeq, hx, ih hr]

lemma decodeCharacters_encode (c : STTResponseWordCharacters)
    (h : charactersAllFinite c = true) :
    decodeCharacters (encodeCharacters c) = Except.ok c := by
  obtain ⟨t, s, e⟩ := c
  simp only [charactersAllFinite, Bool.and_eq_true] at h
  obtain ⟨hs, he⟩ := h
  simp +decide [encodeCharacters, decodeCharacters,
    decodeOptF32_serialize _ hs, decodeOptF32_serialize _ he]

lemma decodeOptList_encode {α : Type} (dec : Json → Except String α) (enc : α → Json)
    (p : α → Bool) (hpt : ∀ a, p a = true → dec (enc a) = Except.ok a)
    (v : Option (List α)) (h : optListAll p v = true) :
    decodeOptList dec (v.map (fun xs => Json.arr (xs.map enc))) = Except.ok v := by
  cases v with
  | none => rfl
  | some xs =>
    simp only [optListAll, List.all_eq_true] at h
    simp [decodeOptList, decodeSeq_encode dec enc xs (fun a ha => hpt a (h a ha))]

lemma decodeWord_encode (w : STTResponseWord) (h : wordAllFinite w = true) :
    decodeWord (encodeWord w) = Except.ok w := by
  obtain ⟨t, s, e, lp, tf, sp, ch⟩ := w
  simp only [wordAllFinite, Bool.and_eq_true] at h
  obtain ⟨⟨⟨hs, he⟩, hlp⟩, hch⟩ := h
  simp +decide [encodeWord, decodeWord, decodeOptF32_serialize _ hs,
    decodeOptF32_serialize _ he, decodeOptF32_serialize _ hlp,
    decodeOptList_encode decodeCharacters encodeCharacters charactersAllFinite
      decodeCharacters_encode ch hch]

lemma decodeResponse_encode (r : STTResponse) (h : responseAllFinite r = true) :
    decodeResponse (encodeResponse r) = Except.ok r := by
  obtain ⟨t, lc, lp, ws⟩ := r
  simp only [responseAllFinite, Bool.and_eq_true] at h
  obtain ⟨hlp, hws⟩ := h
  simp +decide [encodeResponse, decodeResponse, decodeOptF32_serialize _ hlp,
    decodeOptList_encode decodeWord encodeWord wordAllFinite decodeWord_encode ws hws]

@[simp] lemma jsonFieldsHasNull_append (l1 l2 : List (String × Json)) :
    jsonFieldsHasNull (l1 ++ l2) = (jsonFieldsHasNull l1 || jsonFieldsHasNull l2) := by
  induction l1 with
  | nil => simp [jsonFieldsHasNull]
  | cons p ps ih => simp [jsonFieldsHasNull, ih, Bool.or_assoc]

@[simp] lemma hasNull_optionalField_str (n : String) (v : Option String) :
    jsonFieldsHasNull (optionalField n (v.map Json.str)) = false := by
  cases v <;> simp [optionalField, jsonFieldsHasNull, Json.hasNull]

lemma hasNull_optionalField_serialize (n : String) (v : Option F32)
    (h : finiteOpt v = true) :
    jsonFieldsHasNull (optionalField n (v.map serializeF32)) = false := by
  cases v with
  | none => rfl
  | some x =>
    simp only [finiteOpt] at h
    simp [optionalField, jsonFieldsHasNull, serializeF32, h, Json.hasNull]

lemma hasNull_encodeCharacters (c : STTResponseWordCharacters)
    (h : charactersAllFinite c = true) :
    (encodeCharacters c).hasNull = false := by
  obtain ⟨t, s, e⟩ := c
  simp only [charactersAllFinite, Bool.and_eq_true] at h
  obtain ⟨hs, he⟩ := h
  simp [encodeCharacters, Json.hasNull, hasNull_optionalField_serialize "start" s hs,
    hasNull_optionalField_serialize "end" e he]

lemma jsonListHasNull_map {α : Type} (enc : α → Json) (xs : List α)
    (h : ∀ a ∈ xs, (enc a).hasNull = false) :
    jsonListHasNull (xs.map enc) = false := by
  induction xs with
  | nil => rfl
  | cons x rest ih =>
    have hx := h x (List.mem_cons_self x rest)
    have hr : ∀ a ∈ rest, (enc a).hasNull = false :=
      fun a ha => h a (List.mem_cons_of_mem x ha)
    simp [jsonListHasNull, hx, ih hr]

lemma hasNull_optionalField_list {α : Type} (n : String) (enc : α → Json)
    (p : α → Bool) (hpt : ∀ a, p a = true → (enc a).hasNull = false)
    (v : Option (List α)) (h : optListAll p v = true) :
    jsonFieldsHasNull
      (optionalField n (v.map (fun xs => Json.arr (xs.map enc)))) = false := by
  cases v with
  | none => rfl
  | some xs =>
    simp only [optListAll, List.all_eq_true] at h
    simp [optionalField, jsonFieldsHasNull, Json.hasNull,
      jsonListHasNull_map enc xs (fun a ha => hpt a (h a ha))]

lemma hasNull_encodeWord (w : STTResponseWord) (h : wordAllFinite w = true) :
    (encodeWord w).hasNull = false := by
  obtain ⟨t, s, e, lp, tf, sp, ch⟩ := w
  simp only [wordAllFinite, Bool.and_eq_true] at h
  obtain ⟨⟨⟨hs, he⟩, hlp⟩, hch⟩ := h
  simp [encodeWord, Json.hasNull, hasNull_optionalField_serialize "start" s hs,
    hasNull_optionalField_serialize "end" e he,
    hasNull_optionalField_serialize "logprob" lp hlp,
    hasNull_optionalField_list "characters" encodeCharacters charactersAllFinite
      hasNull_encodeCharacters ch hch]

lemma hasNull_encodeResponse (r : STTResponse) (h : responseAllFinite r = true) :
    (encodeResponse r).hasNull = false := by
  obtain ⟨t, lc, lp, ws⟩ := r
  simp only [responseAllFinite, Bool.and_eq_true] at h
  obtain ⟨hlp, hws⟩ := h
  simp [encodeResponse, Json.hasNull,
    hasNull_optionalField_serialize "language_probability" lp hlp,
    hasNull_optionalField_list "words" encodeWord wordAllFinite
      hasNull_encodeWord ws hws]

/-- A `Response` value whose populated `language_probability` field holds a
non-finite float, used as a concrete input. -/
def infinityResponse : STTResponse :=
  { text := some "hello", language_code := none,
    language_probability := some { repr := "inf" }, words := none }

/-- Claim C8, counterexample to the frozen claim: for the Response value whose
populated `language_probability` is the infinity, `serde_json` serializes the
float as an explicit `null`, so decoding the encoded form yields a Response
with that field absent - not field-for-field equal to the original - and the
encoded form does contain a `null`. -/
theorem C8_counterexample :
    decodeResponse (encodeResponse infinityResponse) =
      Except.ok { text := some "hello", language_code := none,
                  language_probability := none, words := none } ∧
    decodeResponse (encodeResponse infinityResponse) ≠ Except.ok infinityResponse ∧
    (encodeResponse infinityResponse).hasNull = true :=
  ⟨by decide, by decide, by decide⟩

/-- Claim C8, corrected. The claim as frozen quantifies over every Response
value; it fails when a populated float field is non-finite, since `serde_json`
serializes NaN and the infinities as `null`, which decodes back to an absent
field. The amended statement proved here: for every Response value (with its
`Word` and `Character` entries) all of whose populated float fields are
finite, encoding to JSON and decoding back yields field-for-field equality
for all populated optional fields, and the encoded form contains no explicit
`null` anywhere - in particular absent (None) fields never appear as nulls. -/
theorem C8_json_roundtrip (r : STTResponse) (h : responseAllFinite r = true) :
    decodeResponse (encodeResponse r) = Except.ok r ∧
    (encodeResponse r).hasNull = false :=
  ⟨decodeResponse_encode r h, hasNull_encodeResponse r h⟩

/-- A fully populated `Response` value with finite floats throughout, used as
a concrete input. -/
def sampleResponse : STTResponse :=
  { text := some "hello", language_code := some "en",
    language_probability := some { repr := "0.98" },
    words := some
      [{ text := some "hello", start := some { repr := "0.1" },
         «end» := some { repr := "0.5" }, logprob := some { repr := "-0.01" },
         type_field := some "word", speaker_id := some "speaker_0",
         characters := some
           [{ text := some "h", start := some { repr := "0.1" },
              «end» := some { repr := "0.2" } }] }] }

/-- Claim C8, witness for the amended theorem: a fully populated response with
finite floats round-trips to itself and its encoding contains no null. -/
theorem C8_witness :
    decodeResponse (encodeResponse sampleResponse) = Except.ok sampleResponse ∧
    (encodeResponse sampleResponse).hasNull = false :=
  C8_json_roundtrip sampleResponse (by decide)

end ElevenLabsSTT
